import Mathlib

/-!
Verification development for the OpenManus Web UI controller (`webui.py`).

The file shallowly embeds the parts of `webui.py` that the properties below
are about:

* the static translation table `TRANSLATIONS` and the lookup `WebUI.get_text`;
* the session controller state (`WebUI.__init__`) and the async generator
  `WebUI.process_message`, embedded as a pure function from an explicit
  session state, the submitted message, the passed-in history and an
  abstraction of the external agent collaborator (`Manus.create` /
  `agent.run`) to the ordered trace of observable events (yields of the
  generator, entry into `initialize_agent`, invocation of the agent factory,
  invocation of `run`) together with the final session state and history;
* `initialize_agent` and the `change_language` handler of the Gradio layer.

Python exceptions raised by the external collaborator are modelled by
`Except String` results carrying `str(e)`; `process_message` itself is a
total function, reflecting that the source catches every exception and never
re-raises it to the caller.
-/

namespace OpenManusWebUI

/-- The two supported language codes of the UI (`--lang` choices `ja`/`en`). -/
inductive Lang
  | ja
  | en
  deriving DecidableEq, Repr

/-- A value of the `TRANSLATIONS` dictionary: every key except `"examples"`
maps to a string; `"examples"` maps to a list of one-element example-prompt
lists (as passed to `gr.Examples`). -/
inductive TransValue
  | txt (s : String)
  | ex (prompts : List (List String))
  deriving DecidableEq, Repr

/-- The Japanese half of the `TRANSLATIONS` table, transcribed verbatim from
the source (triple-quoted strings keep their leading newline and trailing
indentation). -/
def jaTable : List (String × TransValue) := [
  ("title", TransValue.txt "🤖 OpenManus - AIエージェントシステム"),
  ("description", TransValue.txt "\nOpenManusは、複数のツールを使用してさまざまなタスクを解決できる多機能AIエージェントです。\n以下にリクエストを入力して、OpenManusに処理を任せましょう！\n\n**機能:**\n- 🌐 Webブラウジングと検索\n- 💻 コード実行と分析\n- 📝 ファイル操作\n- 🔧 マルチツール統合\n        "),
  ("config_title", TransValue.txt "⚙️ 設定"),
  ("config_content", TransValue.txt "\n**現在の設定:**\n- モデル: `{model}`\n- ワークスペース: `{workspace}`\n- 最大ステップ数: `20`\n\n設定を変更するには、`config/config.toml`を編集してください\n        "),
  ("chat_label", TransValue.txt "チャット履歴"),
  ("input_label", TransValue.txt "メッセージ"),
  ("input_placeholder", TransValue.txt "ここにリクエストを入力してください... (例: \x27最新のAIニュースを検索して\x27)"),
  ("send_button", TransValue.txt "送信 🚀"),
  ("clear_button", TransValue.txt "履歴をクリア 🗑️"),
  ("examples_label", TransValue.txt "💡 サンプルプロンプト"),
  ("examples", TransValue.ex [["AIエージェントに関する最新ニュースを検索して"], ["フィボナッチ数を生成するPythonスクリプトを作成して"], ["workspace/example.txtのデータを分析して"], ["https://github.com/FoundationAgents/OpenManus を閲覧してプロジェクトを要約して"], ["簡単な電卓をPythonで書いてworkspace/calculator.pyに保存して"]]),
  ("footer", TransValue.txt "\n---\n**注意:** OpenManusは複雑なリクエストの処理に時間がかかる場合があります。\nお待ちいただき、同時に複数のリクエストを送信しないでください。\n\n[GitHub](https://github.com/FoundationAgents/OpenManus) |\n[ドキュメント](https://github.com/FoundationAgents/OpenManus/blob/main/README_ja.md)\n        "),
  ("processing", TransValue.txt "🤔 リクエストを処理中..."),
  ("completed", TransValue.txt "✅ タスク完了！\n\n{result}"),
  ("completed_simple", TransValue.txt "✅ タスクが正常に完了しました！"),
  ("error", TransValue.txt "❌ エラー: {error}"),
  ("already_processing", TransValue.txt "⚠️ 既にリクエストを処理中です。お待ちください..."),
  ("language_label", TransValue.txt "言語 / Language")
]

/-- The English half of the `TRANSLATIONS` table, transcribed verbatim. -/
def enTable : List (String × TransValue) := [
  ("title", TransValue.txt "🤖 OpenManus - AI Agent System"),
  ("description", TransValue.txt "\nOpenManus is a versatile AI agent that can solve various tasks using multiple tools.\nEnter your request below and let OpenManus handle it for you!\n\n**Features:**\n- 🌐 Web browsing and searching\n- 💻 Code execution and analysis\n- 📝 File operations\n- 🔧 Multi-tool integration\n        "),
  ("config_title", TransValue.txt "⚙️ Configuration"),
  ("config_content", TransValue.txt "\n**Current Settings:**\n- Model: `{model}`\n- Workspace: `{workspace}`\n- Max Steps: `20`\n\nTo change settings, edit `config/config.toml`\n        "),
  ("chat_label", TransValue.txt "Chat History"),
  ("input_label", TransValue.txt "Your Message"),
  ("input_placeholder", TransValue.txt "Enter your request here... (e.g., \x27Search for the latest AI news\x27)"),
  ("send_button", TransValue.txt "Send 🚀"),
  ("clear_button", TransValue.txt "Clear History 🗑️"),
  ("examples_label", TransValue.txt "💡 Example Prompts"),
  ("examples", TransValue.ex [["Search for the latest news about AI agents"], ["Create a Python script that generates Fibonacci numbers"], ["Analyze the data in workspace/example.txt"], ["Browse https://github.com/FoundationAgents/OpenManus and summarize the project"], ["Write a simple calculator in Python and save it to workspace/calculator.py"]]),
  ("footer", TransValue.txt "\n---\n**Note:** OpenManus may take some time to process complex requests.\nPlease be patient and avoid sending multiple requests simultaneously.\n\n[GitHub](https://github.com/FoundationAgents/OpenManus) |\n[Documentation](https://github.com/FoundationAgents/OpenManus/blob/main/README.md)\n        "),
  ("processing", TransValue.txt "🤔 Processing your request..."),
  ("completed", TransValue.txt "✅ Task completed!\n\n{result}"),
  ("completed_simple", TransValue.txt "✅ Task completed successfully!"),
  ("error", TransValue.txt "❌ Error: {error}"),
  ("already_processing", TransValue.txt "⚠️ Already processing a request. Please wait..."),
  ("language_label", TransValue.txt "Language / 言語")
]

/-- `TRANSLATIONS`: the language-indexed translation dictionary. -/
def TRANSLATIONS : Lang → List (String × TransValue)
  | Lang.ja => jaTable
  | Lang.en => enTable

/-- `TRANSLATIONS[self.language].get(key, key)`: dictionary lookup with the
key itself as the fallback value (the raw-lookup part of `WebUI.get_text`,
before any `.format` interpolation). -/
def get_text (lang : Lang) (key : String) : TransValue :=
  (List.lookup key (TRANSLATIONS lang)).getD (TransValue.txt key)

/-- Projection of a table value to its string; in the source every value that
flows into a string position (every key except `"examples"`) is a string, so
the `ex` arm is never hit on the modelled paths. -/
def TransValue.asText : TransValue → String
  | TransValue.txt s => s
  | TransValue.ex _ => ""

/-- Whether a table value is a string (as opposed to the example-prompt list). -/
def TransValue.isTxt : TransValue → Bool
  | TransValue.txt _ => true
  | TransValue.ex _ => false

/-- Splits `l` around the first occurrence of `pat` (a nonempty pattern):
`some (pre, post)` with `l = pre ++ pat ++ post` and `pat` not occurring
earlier, or `none` when `pat` does not occur. -/
def findSplit (pat : List Char) : List Char → Option (List Char × List Char)
  | [] => none
  | c :: rest =>
      if pat.isPrefixOf (c :: rest) then some ([], (c :: rest).drop pat.length)
      else
        match findSplit pat rest with
        | some (pre, post) => some (c :: pre, post)
        | none => none

/-- Python `template.format(field=value)` for a template that uses the single
named field `field`: the first occurrence of the brace-wrapped field name is
replaced by `value` (each template in `TRANSLATIONS` contains its field
exactly once). -/
def pyFormat1 (template : String) (field : String) (value : String) : String :=
  match findSplit ("\x7b" ++ field ++ "\x7d").data template.data with
  | some (pre, post) => String.mk pre ++ value ++ String.mk post
  | none => template

/-- `self.get_text("processing")`. -/
def processing_notice (lang : Lang) : String :=
  (get_text lang "processing").asText

/-- `self.get_text("completed", result=result)`. -/
def completed_notice (lang : Lang) (result : String) : String :=
  pyFormat1 (get_text lang "completed").asText "result" result

/-- `self.get_text("completed_simple")`. -/
def completed_simple (lang : Lang) : String :=
  (get_text lang "completed_simple").asText

/-- `self.get_text("error", error=str(e))`. -/
def error_notice (lang : Lang) (e : String) : String :=
  pyFormat1 (get_text lang "error").asText "error" e

/-- `self.get_text("already_processing")`. -/
def busy_notice (lang : Lang) : String :=
  (get_text lang "already_processing").asText

/-- ASCII whitespace, the characters `str.strip()` removes on the inputs this
UI deals with. -/
def isPySpace (c : Char) : Bool :=
  c == ' ' || c == '\t' || c == '\n' || c == '\x0d' || c == '\x0b' || c == '\x0c'

/-- The truth value of Python `not message.strip()`: `message.strip()` is the
empty (falsy) string exactly when every character of `message` is whitespace
(in particular when `message` is empty). -/
def strippedEmpty (s : String) : Bool :=
  s.data.all isPySpace

/-- The mutable state of the `WebUI` controller object: `self.agent` (present
or `None`; the handle itself is external and opaque), `self.chat_history`,
`self.is_processing` and `self.language`. -/
structure WebUI where
  agent : Option Unit
  chat_history : List (String × String)
  is_processing : Bool
  language : Lang
  deriving DecidableEq, Repr

/-- `WebUI.__init__(language)`: no agent, empty history, not processing. -/
def WebUI.fresh (language : Lang) : WebUI :=
  { agent := none, chat_history := [], is_processing := false, language := language }

/-- The external agent collaborator: `Manus.create()` either succeeds or
raises (with message `e`), and `run(message)` either returns a result string
or raises (with message `e`). -/
structure AgentBehavior where
  create : Except String Unit
  run : String → Except String String

/-- One observable event of a `process_message` call: a `yield history, echo`
emission (with the history value at yield time), entry into
`initialize_agent`, an invocation of the agent factory `Manus.create()`, or
an invocation of `self.agent.run(message)`. -/
inductive Event
  | emit (history : List (String × String)) (echo : String)
  | callInit
  | callCreate
  | callRun (message : String)
  deriving DecidableEq, Repr

/-- The emissions (yields) of a trace, in order. -/
def emissions : List Event → List (List (String × String) × String)
  | [] => []
  | Event.emit h s :: rest => (h, s) :: emissions rest
  | _ :: rest => emissions rest

/-- `WebUI.initialize_agent`: when `self.agent is None`, invokes
`Manus.create()` and stores the handle on success; otherwise a no-op. Returns
the factory-invocation events and either the updated state or the message of
the exception the factory raised (in which case `self.agent` stays `None`). -/
def initialize_agent (b : AgentBehavior) (st : WebUI) : List Event × Except String WebUI :=
  match st.agent with
  | some _ => ([], Except.ok st)
  | none =>
      match b.create with
      | Except.ok _ => ([Event.callCreate], Except.ok { st with agent := some () })
      | Except.error e => ([Event.callCreate], Except.error e)

/-- The `except` block of `process_message`: if the history is nonempty and
its last turn's user field equals `message`, the last turn's response is
rewritten in place to the error notice; otherwise a new error turn is
appended. -/
def applyError (lang : Lang) (e : String) (message : String)
    (history : List (String × String)) : List (String × String) :=
  match history.getLast? with
  | some last =>
      if last.1 = message then history.dropLast ++ [(message, error_notice lang e)]
      else history ++ [(message, error_notice lang e)]
  | none => history ++ [(message, error_notice lang e)]

/-- The result of one complete run of the `process_message` generator: the
event trace, the final controller state, and the final value of the
passed-in history list. -/
structure PMResult where
  trace : List Event
  state : WebUI
  history : List (String × String)
  deriving Repr

/-- `WebUI.process_message(message, history)`, run to completion against
agent behaviour `b`. Mirrors the source: the blank-message early return, the
busy early return, then `is_processing = True`, `initialize_agent()`, the
placeholder append and first yield, `run(message)`, the result/error
rewriting of the last turn, the `finally` clearing of the flag, and the
final yield. -/
def process_message (b : AgentBehavior) (st : WebUI) (message : String)
    (history : List (String × String)) : PMResult :=
  if strippedEmpty message then
    { trace := [Event.emit history ""], state := st, history := history }
  else if st.is_processing then
    { trace := [Event.emit (history ++ [(message, busy_notice st.language)]) ""],
      state := st, history := history }
  else
    let st1 : WebUI := { st with is_processing := true }
    match initialize_agent b st1 with
    | (ev, Except.error e) =>
        let h2 := applyError st1.language e message history
        { trace := Event.callInit :: ev ++ [Event.emit h2 ""],
          state := { st1 with is_processing := false }, history := h2 }
    | (ev, Except.ok st2) =>
        let h1 := history ++ [(message, processing_notice st2.language)]
        match b.run message with
        | Except.ok result =>
            let response :=
              if result ≠ "" then completed_notice st2.language result
              else completed_simple st2.language
            let h2 := h1.dropLast ++ [(message, response)]
            { trace := Event.callInit :: ev ++
                [Event.emit h1 "", Event.callRun message, Event.emit h2 ""],
              state := { st2 with is_processing := false }, history := h2 }
        | Except.error e =>
            let h2 := applyError st2.language e message h1
            { trace := Event.callInit :: ev ++
                [Event.emit h1 "", Event.callRun message, Event.emit h2 ""],
              state := { st2 with is_processing := false }, history := h2 }

/-- The resolved `config_content` text: `get_text("config_content",
model=model_name, workspace=str(config.workspace_root))`. The model name and
workspace path come from the external `config` collaborator and are passed in
here. -/
def config_text (lang : Lang) (model workspace : String) : String :=
  pyFormat1 (pyFormat1 (get_text lang "config_content").asText "model" model)
    "workspace" workspace

/-- The resolved texts of the ten UI elements `change_language` updates, in
the order of its returned list (the message box contributes both its label
and its placeholder): title (with its `# ` markdown prefix), description,
config accordion label, config panel text, chat label, input label, input
placeholder, send caption, clear caption, examples caption (with its `### `
prefix), footer. -/
def staticLabels (lang : Lang) (model workspace : String) : List String :=
  [ "# " ++ (get_text lang "title").asText,
    (get_text lang "description").asText,
    (get_text lang "config_title").asText,
    config_text lang model workspace,
    (get_text lang "chat_label").asText,
    (get_text lang "input_label").asText,
    (get_text lang "input_placeholder").asText,
    (get_text lang "send_button").asText,
    (get_text lang "clear_button").asText,
    "### " ++ (get_text lang "examples_label").asText,
    (get_text lang "footer").asText ]

/-- The `change_language` handler: sets `webui.language = lang` and returns
the batch of re-resolved static label texts pushed to the UI elements. -/
def change_language (ui : WebUI) (lang : Lang) (model workspace : String) :
    WebUI × List String :=
  ({ ui with language := lang }, staticLabels lang model workspace)

/-- Agent behaviour whose factory succeeds and whose `run` returns `result`. -/
def agentOk (result : String) : AgentBehavior :=
  { create := Except.ok (), run := fun _ => Except.ok result }

/-- Agent behaviour whose factory succeeds and whose `run` raises `e`. -/
def agentRaises (e : String) : AgentBehavior :=
  { create := Except.ok (), run := fun _ => Except.error e }

/-- Agent behaviour whose factory (`Manus.create()`) raises `e`. -/
def agentNoCreate (e : String) : AgentBehavior :=
  { create := Except.error e, run := fun _ => Except.ok "" }

/-- A controller state captured mid-processing: no agent yet, empty history,
`is_processing` already true, Japanese UI. -/
def busyUI : WebUI :=
  { agent := none, chat_history := [], is_processing := true, language := Lang.ja }

/-- Whether an event is a yield of the generator. -/
def Event.isEmit : Event → Bool
  | Event.emit _ _ => true
  | _ => false

/-- Whether a translation value is non-empty (non-empty string, or non-empty
prompt list for `"examples"`). -/
def nonEmptyVal : TransValue → Bool
  | TransValue.txt s => !s.isEmpty
  | TransValue.ex l => !l.isEmpty

/-- The `except` block always leaves the error turn last: whichever arm runs,
the resulting history ends with `(message, error notice)`. -/
theorem applyError_getLast (lang : Lang) (e message : String)
    (history : List (String × String)) :
    (applyError lang e message history).getLast? =
      some (message, error_notice lang e) := by
  unfold applyError
  cases h : history.getLast? with
  | none => simp [List.getLast?_concat]
  | some last =>
      by_cases hl : last.1 = message <;> simp [hl, List.getLast?_concat]

/-- C6: submitting an empty or all-whitespace message produces exactly one
emission, whose history is the input history unchanged, and neither the
agent nor the `is_processing` flag is touched (the whole controller state is
returned unchanged). -/
theorem C6_blank_message_noop (b : AgentBehavior) (st : WebUI) (message : String)
    (history : List (String × String)) (hm : strippedEmpty message = true) :
    process_message b st message history =
      { trace := [Event.emit history ""], state := st, history := history } := by
  simp [process_message, hm]

/-- Witness for C6 at a concrete whitespace message. -/
theorem C6_blank_message_noop_witness :
    process_message (agentOk "w") (WebUI.fresh Lang.ja) " \t " [("a", "b")] =
      { trace := [Event.emit [("a", "b")] ""], state := WebUI.fresh Lang.ja,
        history := [("a", "b")] } :=
  C6_blank_message_noop (agentOk "w") (WebUI.fresh Lang.ja) " \t " [("a", "b")]
    (by decide)

/-- C5 counterexample: the claim quantifies over every message, but the
blank-message check precedes the busy check, so submitting a whitespace-only
message while `is_processing` is true yields the unchanged history with no
busy turn appended. -/
theorem C5_busy_counterexample :
    ¬ ∃ turn : String × String,
      emissions (process_message (agentOk "w")
          busyUI " " []).trace = [([turn], "")] := by
  intro h
  obtain ⟨t, ht⟩ := h
  have hev : emissions (process_message (agentOk "w") busyUI " " []).trace
      = [([], "")] := by rfl
  rw [hev] at ht
  simp at ht

/-- C5 (amended): for every message that is not empty or whitespace-only,
submitting while `is_processing` is true produces exactly one emission whose
history is the input history with one turn appended carrying the busy notice
of the current language, the state and history are unchanged, and neither
the agent factory nor `run` is invoked (the trace holds no call event). -/
theorem C5_busy_branch (b : AgentBehavior) (st : WebUI) (message : String)
    (history : List (String × String))
    (hb : st.is_processing = true) (hm : strippedEmpty message = false) :
    process_message b st message history =
      { trace := [Event.emit (history ++ [(message, busy_notice st.language)]) ""],
        state := st, history := history } := by
  simp [process_message, hm, hb]

/-- Witness for C5 (amended) at a concrete busy state. -/
theorem C5_busy_branch_witness :
    process_message (agentOk "w")
        busyUI "hi" [] =
      { trace := [Event.emit [("hi", busy_notice Lang.ja)] ""],
        state := busyUI,
        history := [] } :=
  C5_busy_branch (agentOk "w") busyUI "hi" [] (by decide) (by decide)

/-- C3 counterexample: the claim asserts that the busy branch also terminates
with `is_processing == false`, but that branch never touches the flag: a
call entered with `is_processing = true` terminates with it still true. -/
theorem C3_busy_counterexample :
    ¬ ((process_message (agentOk "w")
        busyUI "hi" []).state.is_processing = false) := by
  decide

/-- C3 (amended): `is_processing` is false in the freshly constructed
controller, and every complete execution of `process_message` that begins
with `is_processing = false` (which is the case whenever no other call is
mid-execution; this covers the empty-input, success and exception paths —
the busy branch cannot begin in such a state) terminates with
`is_processing = false`. -/
theorem C3_flag_cleared :
    (∀ lang : Lang, (WebUI.fresh lang).is_processing = false) ∧
    ∀ (b : AgentBehavior) (st : WebUI) (message : String)
      (history : List (String × String)),
      st.is_processing = false →
      (process_message b st message history).state.is_processing = false := by
  refine ⟨fun _ => rfl, fun b st message history hp => ?_⟩
  cases hm : strippedEmpty message with
  | true => simp [process_message, hm, hp]
  | false =>
      simp only [process_message, hm, hp, Bool.false_eq_true, if_false]
      cases hinit : initialize_agent b { st with is_processing := true } with
      | mk ev res =>
          cases res with
          | error e => simp
          | ok st2 =>
              cases hr : b.run message with
              | ok result => simp [hr]
              | error e => simp [hr]

/-- Witness for C3 (amended) at a concrete idle state. -/
theorem C3_flag_cleared_witness :
    (process_message (agentOk "w") (WebUI.fresh Lang.ja) "hi" []).state.is_processing
      = false :=
  C3_flag_cleared.2 (agentOk "w") (WebUI.fresh Lang.ja) "hi" [] rfl

/-- C1 counterexample: on the normal path `initialize_agent` is awaited
before the placeholder turn is appended and yielded, so at a concrete fresh
state the first emission (trace index 2) comes strictly after the
`initialize_agent` call (trace index 0), refuting the claimed order
"first emission before ensure_agent_ready". -/
theorem C1_order_counterexample :
    ¬ (∀ i j : Nat,
        (process_message (agentOk "world") (WebUI.fresh Lang.ja) "hello" []).trace.findIdx?
            Event.isEmit = some i →
        (process_message (agentOk "world") (WebUI.fresh Lang.ja) "hello" []).trace.findIdx?
            (fun ev => ev == Event.callInit) = some j →
        i < j) := by
  intro h
  exact absurd (h 2 0 (by rfl) (by rfl)) (by decide)

/-- C1 (amended): in the normal processing path (non-blank message, not
busy, agent construction succeeding when needed), `initialize_agent` is
invoked first — it is the very first event of the trace, so it precedes
every emission — and the placeholder turn (user text, processing notice)
is then appended and yielded as the first emission. -/
theorem C1_init_precedes_placeholder (b : AgentBehavior) (st : WebUI)
    (message : String) (history : List (String × String))
    (hp : st.is_processing = false) (hm : strippedEmpty message = false)
    (hcr : st.agent = none → b.create = Except.ok ()) :
    (process_message b st message history).trace.head? = some Event.callInit ∧
    (emissions (process_message b st message history).trace).head? =
      some (history ++ [(message, processing_notice st.language)], "") := by
  cases hag : st.agent with
  | some u =>
      have hinit : initialize_agent b { st with is_processing := true } =
          ([], Except.ok { st with is_processing := true }) := by
        simp [initialize_agent, hag]
      cases hr : b.run message with
      | ok result => simp [process_message, hm, hp, hinit, hr, emissions]
      | error e => simp [process_message, hm, hp, hinit, hr, emissions]
  | none =>
      have hc := hcr hag
      have hinit : initialize_agent b { st with is_processing := true } =
          ([Event.callCreate],
            Except.ok { st with is_processing := true, agent := some () }) := by
        simp [initialize_agent, hag, hc]
      cases hr : b.run message with
      | ok result => simp [process_message, hm, hp, hinit, hr, emissions]
      | error e => simp [process_message, hm, hp, hinit, hr, emissions]

/-- Witness for C1 (amended) at a fresh state with a succeeding agent. -/
theorem C1_init_precedes_placeholder_witness :
    (process_message (agentOk "world") (WebUI.fresh Lang.ja) "hello" []).trace.head? =
      some Event.callInit ∧
    (emissions (process_message (agentOk "world") (WebUI.fresh Lang.ja) "hello"
        []).trace).head? =
      some ([("hello", processing_notice Lang.ja)], "") :=
  C1_init_precedes_placeholder (agentOk "world") (WebUI.fresh Lang.ja) "hello" []
    rfl (by decide) (fun _ => rfl)

/-- C2: when the agent's `run` is actually invoked and raises with message
"boom" (and the input history's last turn carries the submitted message `X`
as its user field), the completed call leaves the last turn's response equal
to the formatted error notice containing "boom", the `is_processing` flag is
false, and the call completes normally with a final emission of the final
history (the exception is swallowed, never re-raised — `process_message` is
a total function here by construction). -/
theorem C2_run_exception_swallowed (b : AgentBehavior) (st : WebUI) (X : String)
    (hist : List (String × String)) (last : String × String)
    (hlast : hist.getLast? = some last) (hXl : last.1 = X)
    (hrun : b.run X = Except.error "boom")
    (hcall : Event.callRun X ∈ (process_message b st X hist).trace) :
    (process_message b st X hist).history.getLast? =
      some (X, error_notice st.language "boom") ∧
    (process_message b st X hist).state.is_processing = false ∧
    (∃ pre : List Event, (process_message b st X hist).trace =
      pre ++ [Event.emit (process_message b st X hist).history ""]) ∧
    ∃ pre post : String, error_notice st.language "boom" = pre ++ "boom" ++ post := by
  have hcontain : ∃ pre post : String,
      error_notice st.language "boom" = pre ++ "boom" ++ post := by
    cases st.language with
    | ja => exact ⟨"❌ エラー: ", "", by rfl⟩
    | en => exact ⟨"❌ Error: ", "", by rfl⟩
  cases hm : strippedEmpty X with
  | true => exact absurd hcall (by simp [process_message, hm])
  | false =>
  cases hb : st.is_processing with
  | true => exact absurd hcall (by simp [process_message, hm, hb])
  | false =>
  cases hag : st.agent with
  | some u =>
      have hinit : initialize_agent b { st with is_processing := true } =
          ([], Except.ok { st with is_processing := true }) := by
        simp [initialize_agent, hag]
      have hpm : process_message b st X hist =
          { trace := [Event.callInit,
              Event.emit (hist ++ [(X, processing_notice st.language)]) "",
              Event.callRun X,
              Event.emit (applyError st.language "boom" X
                (hist ++ [(X, processing_notice st.language)])) ""],
            state := { st with is_processing := false },
            history := applyError st.language "boom" X
              (hist ++ [(X, processing_notice st.language)]) } := by
        simp [process_message, hm, hb, hinit, hrun]
      rw [hpm]
      exact ⟨applyError_getLast _ _ _ _, rfl,
        ⟨[Event.callInit,
          Event.emit (hist ++ [(X, processing_notice st.language)]) "",
          Event.callRun X], rfl⟩, hcontain⟩
  | none =>
      cases hc : b.create with
      | error e =>
          exact absurd hcall
            (by simp [process_message, initialize_agent, hm, hb, hag, hc])
      | ok u =>
          have hinit : initialize_agent b { st with is_processing := true } =
              ([Event.callCreate],
                Except.ok { st with is_processing := true, agent := some () }) := by
            simp [initialize_agent, hag, hc]
          have hpm : process_message b st X hist =
              { trace := [Event.callInit, Event.callCreate,
                  Event.emit (hist ++ [(X, processing_notice st.language)]) "",
                  Event.callRun X,
                  Event.emit (applyError st.language "boom" X
                    (hist ++ [(X, processing_notice st.language)])) ""],
                state := { st with agent := some (), is_processing := false },
                history := applyError st.language "boom" X
                  (hist ++ [(X, processing_notice st.language)]) } := by
            simp [process_message, hm, hb, hinit, hrun]
          rw [hpm]
          exact ⟨applyError_getLast _ _ _ _, rfl,
            ⟨[Event.callInit, Event.callCreate,
              Event.emit (hist ++ [(X, processing_notice st.language)]) "",
              Event.callRun X], rfl⟩, hcontain⟩

/-- Witness for C2 at a fresh state whose agent raises "boom". -/
theorem C2_run_exception_swallowed_witness :
    (process_message (agentRaises "boom") (WebUI.fresh Lang.ja) "hello"
        [("hello", "old")]).history.getLast? =
      some ("hello", error_notice Lang.ja "boom") ∧
    (process_message (agentRaises "boom") (WebUI.fresh Lang.ja) "hello"
        [("hello", "old")]).state.is_processing = false :=
  ⟨(C2_run_exception_swallowed (agentRaises "boom") (WebUI.fresh Lang.ja) "hello"
      [("hello", "old")] ("hello", "old") rfl rfl rfl (by decide)).1,
   (C2_run_exception_swallowed (agentRaises "boom") (WebUI.fresh Lang.ja) "hello"
      [("hello", "old")] ("hello", "old") rfl rfl rfl (by decide)).2.1⟩

/-- C4: when the agent's `run(X)` is actually invoked and returns `R`, the
final history is the input history with exactly one turn: the placeholder is
rewritten in place to `(X, completion notice containing R)` — or the generic
success notice when `R` is empty — rather than a new turn being appended
(final length is input length plus one, the placeholder's slot), and the
final emission carries that history. The completion template wraps any
result between a fixed prefix and suffix, so the notice contains `R`. -/
theorem C4_success_rewrites_last (b : AgentBehavior) (st : WebUI) (X R : String)
    (hist : List (String × String)) (hX : X ≠ "")
    (hrun : b.run X = Except.ok R)
    (hcall : Event.callRun X ∈ (process_message b st X hist).trace) :
    (process_message b st X hist).history =
      hist ++ [(X, if R ≠ "" then completed_notice st.language R
                   else completed_simple st.language)] ∧
    (emissions (process_message b st X hist).trace).getLast? =
      some ((process_message b st X hist).history, "") ∧
    (process_message b st X hist).history.length = hist.length + 1 ∧
    ∃ pre post : String, ∀ R2 : String,
      completed_notice st.language R2 = pre ++ R2 ++ post := by
  have hcontain : ∃ pre post : String, ∀ R2 : String,
      completed_notice st.language R2 = pre ++ R2 ++ post := by
    cases st.language with
    | ja => exact ⟨"✅ タスク完了！\n\n", "", fun R2 => by rfl⟩
    | en => exact ⟨"✅ Task completed!\n\n", "", fun R2 => by rfl⟩
  cases hm : strippedEmpty X with
  | true => exact absurd hcall (by simp [process_message, hm])
  | false =>
  cases hb : st.is_processing with
  | true => exact absurd hcall (by simp [process_message, hm, hb])
  | false =>
  cases hag : st.agent with
  | some u =>
      have hinit : initialize_agent b { st with is_processing := true } =
          ([], Except.ok { st with is_processing := true }) := by
        simp [initialize_agent, hag]
      have hpm : process_message b st X hist =
          { trace := [Event.callInit,
              Event.emit (hist ++ [(X, processing_notice st.language)]) "",
              Event.callRun X,
              Event.emit (hist ++ [(X, if R ≠ "" then completed_notice st.language R
                else completed_simple st.language)]) ""],
            state := { st with is_processing := false },
            history := hist ++ [(X, if R ≠ "" then completed_notice st.language R
              else completed_simple st.language)] } := by
        simp [process_message, hm, hb, hinit, hrun, List.dropLast_concat]
      rw [hpm]
      exact ⟨rfl, by simp [emissions], by simp, hcontain⟩
  | none =>
      cases hc : b.create with
      | error e =>
          exact absurd hcall
            (by simp [process_message, initialize_agent, hm, hb, hag, hc])
      | ok u =>
          have hinit : initialize_agent b { st with is_processing := true } =
              ([Event.callCreate],
                Except.ok { st with is_processing := true, agent := some () }) := by
            simp [initialize_agent, hag, hc]
          have hpm : process_message b st X hist =
              { trace := [Event.callInit, Event.callCreate,
                  Event.emit (hist ++ [(X, processing_notice st.language)]) "",
                  Event.callRun X,
                  Event.emit (hist ++ [(X, if R ≠ "" then completed_notice st.language R
                    else completed_simple st.language)]) ""],
                state := { st with agent := some (), is_processing := false },
                history := hist ++ [(X, if R ≠ "" then completed_notice st.language R
                  else completed_simple st.language)] } := by
            simp [process_message, hm, hb, hinit, hrun, List.dropLast_concat]
          rw [hpm]
          exact ⟨rfl, by simp [emissions], by simp, hcontain⟩

/-- Witness for C4 at a fresh state whose agent returns "world". -/
theorem C4_success_rewrites_last_witness :
    (process_message (agentOk "world") (WebUI.fresh Lang.ja) "hello" []).history =
      [("hello", if "world" ≠ "" then completed_notice Lang.ja "world"
                 else completed_simple Lang.ja)] :=
  (C4_success_rewrites_last (agentOk "world") (WebUI.fresh Lang.ja) "hello" "world"
    [] (by decide) rfl (by decide)).1

/-- C7: when the agent factory (`Manus.create()` inside `initialize_agent`)
raises `e` on the normal path, the attempt is aborted (`run` is never
invoked) with the error surfaced as the last turn's error notice, the agent
handle is still `None` and the flag cleared afterwards, and any subsequent
non-blank submission against the resulting state invokes the factory again. -/
theorem C7_init_failure_retries (b : AgentBehavior) (st : WebUI) (message e : String)
    (hist : List (String × String))
    (hag : st.agent = none) (hc : b.create = Except.error e)
    (hp : st.is_processing = false) (hm : strippedEmpty message = false) :
    (process_message b st message hist).state.agent = none ∧
    (process_message b st message hist).state.is_processing = false ∧
    ((process_message b st message hist).history.getLast?.map Prod.snd =
      some (error_notice st.language e)) ∧
    (Event.callRun message ∉ (process_message b st message hist).trace) ∧
    ∀ (b2 : AgentBehavior) (m2 : String) (h2 : List (String × String)),
      strippedEmpty m2 = false →
      Event.callCreate ∈
        (process_message b2 (process_message b st message hist).state m2 h2).trace := by
  have hinit : initialize_agent b { st with is_processing := true } =
      ([Event.callCreate], Except.error e) := by
    simp [initialize_agent, hag, hc]
  have hpm : process_message b st message hist =
      { trace := [Event.callInit, Event.callCreate,
          Event.emit (applyError st.language e message hist) ""],
        state := { st with is_processing := false },
        history := applyError st.language e message hist } := by
    simp [process_message, hm, hp, hinit]
  rw [hpm]
  refine ⟨hag, rfl, by simp [applyError_getLast], by simp, ?_⟩
  intro b2 m2 h2 hm2
  cases hc2 : b2.create with
  | ok u =>
      have hinit2 : initialize_agent b2
          { st with is_processing := true } =
          ([Event.callCreate],
            Except.ok { st with is_processing := true, agent := some () }) := by
        simp [initialize_agent, hag, hc2]
      cases hr2 : b2.run m2 with
      | ok result => simp [process_message, hm2, hinit2, hr2]
      | error e2 => simp [process_message, hm2, hinit2, hr2]
  | error e2 =>
      have hinit2 : initialize_agent b2
          { st with is_processing := true } =
          ([Event.callCreate], Except.error e2) := by
        simp [initialize_agent, hag, hc2]
      simp [process_message, hm2, hinit2]

/-- Witness for C7 at a fresh state whose factory raises. -/
theorem C7_init_failure_retries_witness :
    (process_message (agentNoCreate "no api key") (WebUI.fresh Lang.ja) "hello"
        []).state.agent = none ∧
    (process_message (agentNoCreate "no api key") (WebUI.fresh Lang.ja) "hello"
        []).history.getLast?.map Prod.snd =
      some (error_notice Lang.ja "no api key") :=
  ⟨(C7_init_failure_retries (agentNoCreate "no api key") (WebUI.fresh Lang.ja)
      "hello" "no api key" [] rfl rfl rfl (by decide)).1,
   (C7_init_failure_retries (agentNoCreate "no api key") (WebUI.fresh Lang.ja)
      "hello" "no api key" [] rfl rfl rfl (by decide)).2.2.1⟩

/-- C10: when an exception occurs before the placeholder turn is appended
(here: the agent factory raising `e`), the `except` block works on the
caller-supplied history: if its last turn's user field equals the submitted
message, that turn's response is overwritten with the error notice (no new
turn); a new error turn is appended exactly when the history is empty or its
last turn's user field differs from the message. -/
theorem C10_preexisting_turn_overwritten (b : AgentBehavior) (st : WebUI)
    (message e : String)
    (hag : st.agent = none) (hc : b.create = Except.error e)
    (hp : st.is_processing = false) (hm : strippedEmpty message = false) :
    (∀ (hist : List (String × String)) (last : String × String),
        hist.getLast? = some last → last.1 = message →
        (process_message b st message hist).history =
          hist.dropLast ++ [(message, error_notice st.language e)]) ∧
    (∀ hist : List (String × String),
        (∀ last, hist.getLast? = some last → last.1 ≠ message) →
        (process_message b st message hist).history =
          hist ++ [(message, error_notice st.language e)]) := by
  have hinit : initialize_agent b { st with is_processing := true } =
      ([Event.callCreate], Except.error e) := by
    simp [initialize_agent, hag, hc]
  have hpm : ∀ hist : List (String × String),
      (process_message b st message hist).history =
        applyError st.language e message hist := by
    intro hist
    simp [process_message, hm, hp, hinit]
  constructor
  · intro hist last hlast hl
    rw [hpm hist]
    simp only [applyError, hlast]
    simp [hl]
  · intro hist hne
    rw [hpm hist]
    cases hlast : hist.getLast? with
    | none => simp only [applyError, hlast]
    | some last =>
        simp only [applyError, hlast]
        simp [hne last hlast]

/-- Witness for C10: overwrite when the last turn carries the message,
append when it does not. -/
theorem C10_preexisting_turn_overwritten_witness :
    (process_message (agentNoCreate "boom") (WebUI.fresh Lang.ja) "hello"
        [("other", "r"), ("hello", "r2")]).history =
      [("other", "r"), ("hello", error_notice Lang.ja "boom")] ∧
    (process_message (agentNoCreate "boom") (WebUI.fresh Lang.ja) "hello"
        [("other", "r")]).history =
      [("other", "r"), ("hello", error_notice Lang.ja "boom")] :=
  ⟨(C10_preexisting_turn_overwritten (agentNoCreate "boom") (WebUI.fresh Lang.ja)
      "hello" "boom" rfl rfl rfl (by decide)).1
      [("other", "r"), ("hello", "r2")] ("hello", "r2") rfl rfl,
   (C10_preexisting_turn_overwritten (agentNoCreate "boom") (WebUI.fresh Lang.ja)
      "hello" "boom" rfl rfl rfl (by decide)).2
      [("other", "r")] (fun last hlast => by
        simp at hlast
        subst hlast
        decide)⟩

/-- C8: switching the language from `ja` to `en` changes the resolved text
of every one of the ten static UI elements `change_language` updates (at the
configuration values used for interpolation), and switching back to `ja`
restores both the controller state and every label string byte-for-byte. -/
theorem C8_language_switch_roundtrip (ui : WebUI) (hlang : ui.language = Lang.ja) :
    (change_language (change_language ui Lang.en "gpt-4o" "/workspace").1 Lang.ja
        "gpt-4o" "/workspace").1 = ui ∧
    (change_language (change_language ui Lang.en "gpt-4o" "/workspace").1 Lang.ja
        "gpt-4o" "/workspace").2 = staticLabels Lang.ja "gpt-4o" "/workspace" ∧
    ((staticLabels Lang.en "gpt-4o" "/workspace").length =
      (staticLabels Lang.ja "gpt-4o" "/workspace").length) ∧
    ((staticLabels Lang.en "gpt-4o" "/workspace").zip
        (staticLabels Lang.ja "gpt-4o" "/workspace")).all
      (fun p => p.1 != p.2) = true := by
  obtain ⟨a, ch, pr, l⟩ := ui
  subst hlang
  exact ⟨rfl, rfl, rfl, by decide⟩

/-- Witness for C8 at the freshly constructed Japanese controller. -/
theorem C8_language_switch_roundtrip_witness :
    (change_language (change_language (WebUI.fresh Lang.ja) Lang.en "gpt-4o"
        "/workspace").1 Lang.ja "gpt-4o" "/workspace").1 = WebUI.fresh Lang.ja ∧
    ((staticLabels Lang.en "gpt-4o" "/workspace").zip
        (staticLabels Lang.ja "gpt-4o" "/workspace")).all
      (fun p => p.1 != p.2) = true :=
  ⟨(C8_language_switch_roundtrip (WebUI.fresh Lang.ja) rfl).1,
   (C8_language_switch_roundtrip (WebUI.fresh Lang.ja) rfl).2.2.2⟩

set_option maxRecDepth 4000 in
/-- C9 counterexample: the key `"examples"` is present in both languages'
tables, yet the lookup returns the example-prompt list for it, not text —
so "returns non-empty text for every key present in both tables" fails. -/
theorem C9_examples_counterexample :
    "examples" ∈ ((TRANSLATIONS Lang.ja).map Prod.fst) ∧
    "examples" ∈ ((TRANSLATIONS Lang.en).map Prod.fst) ∧
    (get_text Lang.ja "examples").isTxt = false ∧
    (get_text Lang.en "examples").isTxt = false := by
  exact ⟨by decide, by decide, by rfl, by rfl⟩

set_option maxRecDepth 4000 in
/-- C9 (amended): both languages' tables have the same keys; every
string-valued entry resolves to non-empty text (and the one list-valued
entry, `"examples"`, to a non-empty prompt list); and for a key absent from
the current language's table the lookup returns the key string itself
unchanged. -/
theorem C9_lookup_contract :
    ((TRANSLATIONS Lang.ja).map Prod.fst = (TRANSLATIONS Lang.en).map Prod.fst) ∧
    ((TRANSLATIONS Lang.ja).all (fun p => nonEmptyVal p.2) = true) ∧
    ((TRANSLATIONS Lang.en).all (fun p => nonEmptyVal p.2) = true) ∧
    ∀ (lang : Lang) (key : String),
      List.lookup key (TRANSLATIONS lang) = none →
      get_text lang key = TransValue.txt key := by
  refine ⟨by decide, by decide, by decide, fun lang key hnone => ?_⟩
  simp [get_text, hnone]

/-- Witness for C9 (amended) at a concrete absent key. -/
theorem C9_lookup_contract_witness :
    get_text Lang.ja "no_such_key" = TransValue.txt "no_such_key" :=
  C9_lookup_contract.2.2.2 Lang.ja "no_such_key" (by decide)

end OpenManusWebUI
